import Mathlib

/-!
Verification of the FENIX eagle service's deduplication and relevance-scoring
core against its specification.

The development shallowly embeds, in Lean:

* the string-similarity function used by the deduplication service, i.e. the
  CPython `difflib.SequenceMatcher(None, a, b).ratio()` algorithm (greedy
  longest-matching-block decomposition, with the autojunk popularity filter and
  the empty junk predicate arising from `isjunk=None`);
* the `DeduplicationService` operations of
  `fenix-eagle/src/services/deduplication_service.py`
  (`_calculate_similarity`, `_is_similar_tender`, `_is_duplicate`,
  `detect_new_tenders`, `store_new_tenders`, `_cleanup_old_tenders`);
* the tender part of the retention sweep `_cleanup_old_data_async` of
  `fenix-eagle/src/services/scheduler.py`;
* the relevance scorers `_calculate_relevance` of
  `fenix-eagle/src/services/crawl4ai_scraper.py` and
  `calculate_relevance_score` of
  `fenix-eagle/src/services/poptavky_cz_scraper.py`.

Modelling conventions: Python strings are `List Char`; Python floats are `ℚ`
(the claims at stake are order/bound/equality facts whose status does not
depend on binary rounding of the small decimal weights involved); the
relational store is a `List StoredTender`; a SQL `NULL`-able column read with
three-valued comparison semantics is an `Option`; exceptions raised by the
database layer are injected through explicit Boolean fault oracles, and a
caught exception follows exactly the `except` branch of the source.
-/

namespace Fenix

/-! ### difflib.SequenceMatcher (CPython standard library), as invoked with
`SequenceMatcher(None, title1, title2).ratio()` by `_calculate_similarity`. -/

/-- Best matching block found so far: `besti`, `bestj`, `bestsize` exactly as
in CPython `find_longest_match`. -/
structure Match where
  besti : Nat
  bestj : Nat
  bestsize : Nat
deriving DecidableEq

/-- Positions (ascending) of element `c` in `b`: the `b2j` index lists built by
`__chain_b` before junk purging. -/
def positions (b : List Char) (c : Char) : List Nat :=
  (List.range b.length).filter (fun j => b.getD j ' ' = c)

/-- Autojunk popularity test of `__chain_b`: with `autojunk=True`, an element
of a sequence `b` of length at least 200 is popular (and purged from `b2j`)
when it occupies more than 1% of `b`, i.e. its count exceeds `len(b)//100+1`. -/
def isPopular (b : List Char) (c : Char) : Bool :=
  decide (200 ≤ b.length) && decide (b.length / 100 + 1 < List.count c b)

/-- Index list `b2j.get(c, [])` after junk purging (`isjunk=None`, so only the
autojunk popularity purge applies). -/
def b2j (b : List Char) (c : Char) : List Nat :=
  if isPopular b c then [] else positions b c

/-- Junk predicate `isbjunk = self.bjunk.__contains__`: the constructor is
called with `isjunk=None`, so `bjunk` is empty and the predicate is constantly
false. -/
def isbjunk (_c : Char) : Bool :=
  false

/-- Inner loop of `find_longest_match` for one row `i`: walk the (ascending,
range-filtered) occurrence list of `a[i]` in `b`, building the new run-length
table `newj2len` and updating the best block. CPython reads `j2len.get(j-1, 0)`
where key `-1` is never present, hence the special case at `j = 0`. -/
def flmInner (i : Nat) (j2len : Nat → Nat) :
    List Nat → (Nat → Nat) → Match → ((Nat → Nat) × Match)
  | [], nj, m => (nj, m)
  | j :: js, nj, m =>
    let k := if j = 0 then 1 else j2len (j - 1) + 1
    let nj' : Nat → Nat := fun x => if x = j then k else nj x
    let m' : Match := if m.bestsize < k then ⟨i + 1 - k, j + 1 - k, k⟩ else m
    flmInner i j2len js nj' m'

/-- Outer loop of `find_longest_match` over the rows `i ∈ [alo, ahi)`. The
`continue`/`break` guards on an ascending occurrence list amount to keeping the
indices `j` with `blo ≤ j < bhi`. -/
def flmRows (a b : List Char) (blo bhi : Nat) :
    List Nat → (Nat → Nat) → Match → Match
  | [], _, m => m
  | i :: is, j2len, m =>
    let js := (b2j b (a.getD i ' ')).filter
      (fun j => decide (blo ≤ j) && decide (j < bhi))
    let r := flmInner i j2len js (fun _ => 0) m
    flmRows a b blo bhi is r.1 r.2

/-- Leftward extension loop of `find_longest_match` (run twice in CPython:
once demanding non-junk context, once demanding junk context). The fuel is an
upper bound on the iteration count; `besti` strictly decreases each step, so
fuel `m.besti` never runs out. -/
def extendLeft (a b : List Char) (alo blo : Nat) (junk : Bool) :
    Nat → Match → Match
  | 0, m => m
  | fuel + 1, m =>
    if alo < m.besti ∧ blo < m.bestj ∧
        isbjunk (b.getD (m.bestj - 1) ' ') = junk ∧
        a.getD (m.besti - 1) ' ' = b.getD (m.bestj - 1) ' ' then
      extendLeft a b alo blo junk fuel ⟨m.besti - 1, m.bestj - 1, m.bestsize + 1⟩
    else m

/-- Rightward extension loop of `find_longest_match`; `bestsize` strictly
increases while staying below `ahi - besti`, so fuel `ahi` never runs out. -/
def extendRight (a b : List Char) (ahi bhi : Nat) (junk : Bool) :
    Nat → Match → Match
  | 0, m => m
  | fuel + 1, m =>
    if m.besti + m.bestsize < ahi ∧ m.bestj + m.bestsize < bhi ∧
        isbjunk (b.getD (m.bestj + m.bestsize) ' ') = junk ∧
        a.getD (m.besti + m.bestsize) ' ' = b.getD (m.bestj + m.bestsize) ' ' then
      extendRight a b ahi bhi junk fuel ⟨m.besti, m.bestj, m.bestsize + 1⟩
    else m

/-- CPython `SequenceMatcher.find_longest_match(alo, ahi, blo, bhi)`: the
dynamic-programming sweep followed by the four extension loops. -/
def findLongestMatch (a b : List Char) (alo ahi blo bhi : Nat) : Match :=
  let m0 := flmRows a b blo bhi (List.range' alo (ahi - alo)) (fun _ => 0)
    ⟨alo, blo, 0⟩
  let m1 := extendLeft a b alo blo false m0.besti m0
  let m2 := extendRight a b ahi bhi false ahi m1
  let m3 := extendLeft a b alo blo true m2.besti m2
  extendRight a b ahi bhi true ahi m3

/-- Total size of the matching blocks of `get_matching_blocks` restricted to
the sub-ranges `[alo, ahi) × [blo, bhi)`: the queue-based block decomposition,
written as the equivalent recursion (the queue order does not affect the set
of emitted blocks, and the final merging of adjacent blocks preserves the total
size, which is all `ratio` consumes). Each level strictly shrinks
`(ahi - alo) + (bhi - blo)`, so fuel `a.length + b.length + 1` never runs
out. -/
def matchTotal (a b : List Char) : Nat → Nat → Nat → Nat → Nat → Nat
  | 0, _, _, _, _ => 0
  | fuel + 1, alo, ahi, blo, bhi =>
    let m := findLongestMatch a b alo ahi blo bhi
    if m.bestsize = 0 then 0
    else
      m.bestsize + matchTotal a b fuel alo m.besti blo m.bestj +
        matchTotal a b fuel (m.besti + m.bestsize) ahi (m.bestj + m.bestsize) bhi

/-- CPython `SequenceMatcher.ratio()`: `2.0 * M / T` where `M` is the total
matched size and `T` the total length, and `1.0` when both sequences are
empty (`_calculate_ratio`). -/
def seqRatio (a b : List Char) : ℚ :=
  let length := a.length + b.length
  if length = 0 then 1
  else 2 * (matchTotal a b (length + 1) 0 a.length 0 b.length : ℚ) / (length : ℚ)

/-- Well-formedness of a best block for the sub-ranges `[alo, ahi) × [blo,
bhi)`: it lies inside them. -/
def MBounds (alo ahi blo bhi : Nat) (m : Match) : Prop :=
  alo ≤ m.besti ∧ blo ≤ m.bestj ∧ m.besti + m.bestsize ≤ ahi ∧
    m.bestj + m.bestsize ≤ bhi

/-- Invariant of the run-length table before row `i` is processed: every
recorded run ends inside `[blo, bhi)`, has length at most `i - alo`, and
started no earlier than `blo`. -/
def J2Inv (alo blo bhi i : Nat) (f : Nat → Nat) : Prop :=
  ∀ x, f x = 0 ∨ (blo ≤ x ∧ x < bhi ∧ f x + alo ≤ i ∧ f x + blo ≤ x + 1)

/-! ### Data model of the deduplication service -/

/-- Python `str.lower()` (modelled on its ASCII fragment; every concrete
string this development evaluates on is already lowercase). -/
def pyLower (s : List Char) : List Char :=
  s.map Char.toLower

/-- Python substring operator `needle in hay`. -/
def strContains (needle hay : List Char) : Bool :=
  hay.tails.any (fun t => needle.isPrefixOf t)

/-- Python `str.split()` with no argument: split on whitespace runs, dropping
empty pieces. -/
def pySplit (s : List Char) : List (List Char) :=
  (s.splitOnP (fun c => c.isWhitespace)).filter (fun w => w ≠ [])

/-- Scraped tender dictionary as consumed by the service. A field read with
`tender.get(key, "")` (or truth-tested after `tender.get(key)`) is a
`List Char`, with `[]` for an absent or empty value — Python treats both as
falsy in every read the service performs. `relevance_score` keeps the
absent/`None` distinction because it is stored into a nullable column. -/
structure Candidate where
  tender_id : List Char
  title : List Char
  description : List Char
  location : List Char
  source : List Char
  source_url : List Char
  relevance_score : Option ℚ
deriving DecidableEq

/-- Row of the `stored_tenders` table (`database/models.py`), restricted to the
columns the modelled operations read or write: `id` (primary key, modelled as
`Nat`), `tender_id` (nullable, unique-indexed), `title`, `description`,
`location`, `source`, `source_url`, `relevance_score` (nullable float),
`created_at`, `is_notified`. Text columns use `[]` for NULL-or-empty, which
the service code treats identically (`tender2.title.lower() if tender2.title
else ""`); timestamps are integer seconds. -/
structure StoredTender where
  id : Nat
  tender_id : Option (List Char)
  title : List Char
  description : List Char
  location : List Char
  source : List Char
  source_url : List Char
  relevance_score : Option ℚ
  created_at : ℤ
  is_notified : Bool
deriving DecidableEq

/-- Configuration read by `DeduplicationService.__init__` via
`getattr(settings, name, default)`. -/
structure DeduplicationService where
  similarity_threshold : ℚ
  max_stored_tenders : Nat

/-- Service built from the shipped settings: `config.py` defines neither
`deduplication_similarity_threshold` nor `max_stored_tenders`, so the
`getattr` defaults `0.8` and `10000` apply. -/
def defaultService : DeduplicationService :=
  ⟨4 / 5, 10000⟩

/-- SQL three-valued `<` on the nullable `relevance_score` column: a NULL
operand makes the comparison unknown, hence the row is not selected. -/
def sqlScoreLt (s : Option ℚ) (c : ℚ) : Bool :=
  match s with
  | some q => decide (q < c)
  | none => false

/-- Fault oracle for the database layer during one candidate's duplicate
check: whether the `source_url` query, the `tender_id` query, or the
similarity-candidates query raises, and whether an exception escapes
`_is_duplicate` into the batch loop of `detect_new_tenders` (whose own
`except` handler then returns the whole input). -/
structure DbFaults where
  url_query_fails : Bool
  id_query_fails : Bool
  similar_query_fails : Bool
  loop_raises : Bool

/-- Fault-free database layer. -/
def noFaults : Nat → DbFaults :=
  fun _ => ⟨false, false, false, false⟩

/-! ### DeduplicationService operations -/

/-- Embeds `DeduplicationService._calculate_similarity`: per-field
`SequenceMatcher(None, x, y).ratio()` weighted 0.5/0.3/0.2 over the fields
that are non-empty on both sides, then `sum(scores) / len(scores)` (`0.0` when
no field contributes). -/
def calculate_similarity (tender1 : Candidate) (tender2 : StoredTender) : ℚ :=
  let title1 := pyLower tender1.title
  let title2 := pyLower tender2.title
  let desc1 := pyLower tender1.description
  let desc2 := pyLower tender2.description
  let loc1 := pyLower tender1.location
  let loc2 := pyLower tender2.location
  let scores : List ℚ :=
    (if title1 ≠ [] ∧ title2 ≠ [] then [seqRatio title1 title2 * (1 / 2)] else []) ++
    (if desc1 ≠ [] ∧ desc2 ≠ [] then [seqRatio desc1 desc2 * (3 / 10)] else []) ++
    (if loc1 ≠ [] ∧ loc2 ≠ [] then [seqRatio loc1 loc2 * (1 / 5)] else [])
  if scores = [] then 0 else scores.sum / (scores.length : ℚ)

/-- Embeds `DeduplicationService._is_similar_tender`. An empty title returns
False; a whitespace-only title makes `title.split()[0]` raise `IndexError`,
caught by the handler, returning False; a failing candidates query is likewise
caught, returning False. Otherwise the stored tenders of the same source whose
title contains the first word of the candidate's title (the
`ilike` prefilter, modelled as case-insensitive containment for patterns
without SQL wildcards), capped at 50, are compared; True exactly when one
exceeds the similarity threshold strictly. -/
def is_similar_tender (svc : DeduplicationService) (db : List StoredTender)
    (query_fails : Bool) (tender : Candidate) : Bool :=
  let source := tender.source
  let title := tender.title
  if title = [] then false
  else
    match (pySplit title).head? with
    | none => false
    | some w =>
      if query_fails then false
      else
        let similar_candidates :=
          (db.filter (fun c =>
            decide (c.source = source) && strContains (pyLower w) (pyLower c.title))).take 50
        similar_candidates.any
          (fun c => decide (svc.similarity_threshold < calculate_similarity tender c))

/-- Embeds `DeduplicationService._is_duplicate`: exact `source_url` match,
then exact `tender_id` match (SQL `=` on a nullable column: NULL never
matches), then the similarity check; a query that raises is caught by the
surrounding handler, which returns False (not a duplicate) without running the
remaining checks. -/
def is_duplicate (svc : DeduplicationService) (db : List StoredTender)
    (f : DbFaults) (tender : Candidate) : Bool :=
  if tender.source_url ≠ [] ∧ f.url_query_fails then false
  else if tender.source_url ≠ [] ∧
      db.any (fun s => decide (s.source_url = tender.source_url)) then true
  else if tender.tender_id ≠ [] ∧ f.id_query_fails then false
  else if tender.tender_id ≠ [] ∧
      db.any (fun s => decide (s.tender_id = some tender.tender_id)) then true
  else is_similar_tender svc db f.similar_query_fails tender

/-- Batch loop of `detect_new_tenders`, with the per-candidate fault oracle
indexed by position. An exception escaping at any candidate aborts the loop
(`Except.error`), discarding the accumulated list. -/
def detectLoop (svc : DeduplicationService) (db : List StoredTender)
    (F : Nat → DbFaults) : Nat → List Candidate → Except Unit (List Candidate)
  | _, [] => Except.ok []
  | i, t :: rest =>
    if (F i).loop_raises then Except.error ()
    else
      match detectLoop svc db F (i + 1) rest with
      | Except.error e => Except.error e
      | Except.ok l =>
        Except.ok (if is_duplicate svc db (F i) t then l else t :: l)

/-- Embeds `DeduplicationService.detect_new_tenders`: keep the candidates that
are not duplicates; if an exception reaches the outer handler, return the
entire input list ("in case of error, return all tenders to avoid losing
data"). -/
def detect_new_tenders (svc : DeduplicationService) (db : List StoredTender)
    (F : Nat → DbFaults) (scraped_tenders : List Candidate) : List Candidate :=
  match detectLoop svc db F 0 scraped_tenders with
  | Except.ok new_tenders => new_tenders
  | Except.error _ => scraped_tenders

/-! ### Persistence and cleanup -/

/-- Row constructed by `store_new_tenders` from one candidate dictionary:
`tender_id=tender_data.get("tender_id")` (NULL when absent),
`title=tender_data.get("title", "")` (and likewise the other text fields),
`is_notified=False`; the primary key and `created_at` are supplied by the
database at insert time and are passed in here explicitly. -/
def mkStoredTender (now : ℤ) (rowId : Nat) (t : Candidate) : StoredTender :=
  { id := rowId
    tender_id := if t.tender_id = [] then none else some t.tender_id
    title := t.title
    description := t.description
    location := t.location
    source := t.source
    source_url := t.source_url
    relevance_score := t.relevance_score
    created_at := now
    is_notified := false }

/-- Construction loop of `store_new_tenders`: a candidate whose row
construction raises (oracle `construct_fails` at its position) is skipped by
the inner `except ... continue`; the others become rows with consecutive fresh
primary keys. -/
def buildStored (now : ℤ) (construct_fails : Nat → Bool) :
    Nat → Nat → List Candidate → List StoredTender
  | _, _, [] => []
  | i, rowId, t :: ts =>
    if construct_fails i then buildStored now construct_fails (i + 1) rowId ts
    else mkStoredTender now rowId t :: buildStored now construct_fails (i + 1) (rowId + 1) ts

/-- Stable insertion into a list sorted by ascending `created_at` (model of
the SQL `ORDER BY created_at ASC`). -/
def insertByCreatedAt (t : StoredTender) : List StoredTender → List StoredTender
  | [] => [t]
  | u :: us =>
    if t.created_at < u.created_at then t :: u :: us else u :: insertByCreatedAt t us

/-- Sort by ascending `created_at`. -/
def sortByCreatedAt : List StoredTender → List StoredTender
  | [] => []
  | t :: ts => insertByCreatedAt t (sortByCreatedAt ts)

/-- Embeds `DeduplicationService._cleanup_old_tenders` (the success path of
its internal handler): when the row count exceeds `max_stored_tenders`, delete
the `excess` oldest rows among those with `relevance_score < 0.5` (SQL
semantics: a NULL score is never selected); rows are deleted by primary
key. -/
def cleanup_old_tenders (svc : DeduplicationService)
    (db : List StoredTender) : List StoredTender :=
  let tender_count := db.length
  if svc.max_stored_tenders < tender_count then
    let excess_count := tender_count - svc.max_stored_tenders
    let old_tenders :=
      (sortByCreatedAt (db.filter
        (fun t => sqlScoreLt t.relevance_score (1 / 2)))).take excess_count
    db.filter (fun t => !(old_tenders.any (fun o => decide (o.id = t.id))))
  else db

/-- Embeds `DeduplicationService.store_new_tenders`. Rows are built (a
construction error skips that row), then committed; a failing insert commit
rolls back — the pending inserts are discarded, the store is unchanged — and
the error is re-raised (`Except.error` carries the store state observed by the
caller). On success the freshly inserted objects are flipped to
`is_notified=True` and committed again; a failure of that second commit rolls
back only the pending flag updates — the insert commit already happened — and
re-raises. After both commits `_cleanup_old_tenders` runs (its internal
handler swallows its own errors, leaving the store as committed), and the
mutated stored objects are returned. -/
def store_new_tenders (svc : DeduplicationService) (db : List StoredTender)
    (now : ℤ) (nextId : Nat) (construct_fails : Nat → Bool)
    (commit_insert_fails commit_notify_fails cleanup_fails : Bool)
    (new_tenders : List Candidate) :
    Except (List StoredTender) (List StoredTender × List StoredTender) :=
  let built := buildStored now construct_fails 0 nextId new_tenders
  if commit_insert_fails then Except.error db
  else
    let notified := built.map (fun t => { t with is_notified := true })
    if commit_notify_fails then Except.error (db ++ built)
    else
      let committed := db ++ notified
      let final := if cleanup_fails then committed else cleanup_old_tenders svc committed
      Except.ok (final, notified)

/-- Default of `settings.tender_retention_days` (`config.py`). -/
def tender_retention_days : Nat :=
  90

/-- Embeds the `StoredTender` part of the scheduler's
`_cleanup_old_data_async` retention sweep: delete the rows with
`created_at < now - tender_retention_days` and `relevance_score < 0.7`
(three-valued SQL `<`); any database error rolls back, leaving the store
unchanged, and re-raises. -/
def cleanup_old_data (retention_days : Nat) (now : ℤ) (db_fails : Bool)
    (db : List StoredTender) : Except (List StoredTender) (List StoredTender) :=
  let cutoff_date_tenders : ℤ := now - retention_days * 86400
  if db_fails then Except.error db
  else
    Except.ok (db.filter (fun t =>
      !(decide (t.created_at < cutoff_date_tenders) &&
        sqlScoreLt t.relevance_score (7 / 10))))

/-! ### Relevance scorers -/

/-- Industry vocabulary of `_calculate_relevance`
(`crawl4ai_scraper.py`). -/
def industry_terms : List (List Char) :=
  ["window".toList, "door".toList, "glazing".toList, "fenestration".toList,
   "curtain wall".toList, "storefront".toList]

/-- Embeds `_calculate_relevance` of `crawl4ai_scraper.py`: base score 0.3;
per keyword found in `f"{title} {description}".lower()` add 0.3 when it occurs
in the title, else 0.2; add 0.1 per industry term in the text; cap at 1.0. -/
def calculate_relevance (title description : List Char)
    (keywords : List (List Char)) : ℚ :=
  let text := pyLower (title ++ ' ' :: description)
  let base : ℚ := 3 / 10
  let keywordScore : ℚ :=
    (keywords.map (fun keyword =>
      if strContains (pyLower keyword) text then
        if strContains (pyLower keyword) (pyLower title) then (3 / 10 : ℚ)
        else 2 / 10
      else 0)).sum
  let industryScore : ℚ :=
    (industry_terms.map (fun term =>
      if strContains term text then (1 / 10 : ℚ) else 0)).sum
  min (base + keywordScore + industryScore) 1

/-- Weighted vocabulary `fenestration_keywords` of `calculate_relevance_score`
(`poptavky_cz_scraper.py`), in source order; the dict literal has no repeated
key. -/
def fenestration_keywords : List (List Char × ℚ) := [
  ("výrobu a montáž".toList, 7 / 2),
  ("vyroba a montaz".toList, 7 / 2),
  ("montáž a výroba".toList, 7 / 2),
  ("montaz a vyroba".toList, 7 / 2),
  ("montáž oken".toList, 3 / 1),
  ("montaz oken".toList, 3 / 1),
  ("montáž dveří".toList, 3 / 1),
  ("montaz dveri".toList, 3 / 1),
  ("instalace oken".toList, 3 / 1),
  ("instalace dveří".toList, 3 / 1),
  ("instalace dveri".toList, 3 / 1),
  ("výměna oken".toList, 3 / 1),
  ("vymena oken".toList, 3 / 1),
  ("výměna dveří".toList, 3 / 1),
  ("vymena dveri".toList, 3 / 1),
  ("renovaci oken".toList, 3 / 1),
  ("renovace oken".toList, 3 / 1),
  ("renovaci dveří".toList, 3 / 1),
  ("renovace dveri".toList, 3 / 1),
  ("renovaci dřevěných oken".toList, 7 / 2),
  ("renovace drevenych oken".toList, 7 / 2),
  ("dodávka a montáž".toList, 5 / 2),
  ("dodavka a montaz".toList, 5 / 2),
  ("vchodových dveří".toList, 14 / 5),
  ("vchodovych dveri".toList, 14 / 5),
  ("dvoukřídlých dveří".toList, 5 / 2),
  ("dvoukridlych dveri".toList, 5 / 2),
  ("nových dveří".toList, 23 / 10),
  ("novych dveri".toList, 23 / 10),
  ("výrobu".toList, 2 / 1),
  ("vyroba".toList, 2 / 1),
  ("výrobu dveří".toList, 14 / 5),
  ("vyroba dveri".toList, 14 / 5),
  ("výrobu oken".toList, 14 / 5),
  ("vyroba oken".toList, 14 / 5),
  ("ze skla".toList, 9 / 5),
  ("se sklem".toList, 9 / 5),
  ("skla".toList, 3 / 2),
  ("skleněných".toList, 3 / 2),
  ("sklenych".toList, 3 / 2),
  ("dřevěných oken".toList, 2 / 1),
  ("drevenych oken".toList, 2 / 1),
  ("plastových oken".toList, 2 / 1),
  ("plasovych oken".toList, 2 / 1),
  ("dřevěná okna".toList, 9 / 5),
  ("drevena okna".toList, 9 / 5),
  ("plastová okna".toList, 9 / 5),
  ("plastova okna".toList, 9 / 5),
  ("hliníková okna".toList, 9 / 5),
  ("hlinikova okna".toList, 9 / 5),
  ("realizace".toList, 3 / 2),
  ("rekonstrukce".toList, 3 / 2),
  ("renovaci".toList, 3 / 2),
  ("renovace".toList, 3 / 2),
  ("montáž".toList, 6 / 5),
  ("montaz".toList, 6 / 5),
  ("instalace".toList, 6 / 5),
  ("installation".toList, 6 / 5),
  ("výměna".toList, 6 / 5),
  ("vymena".toList, 6 / 5),
  ("replacement".toList, 6 / 5),
  ("dodávka".toList, 1 / 1),
  ("dodavka".toList, 1 / 1),
  ("dodání".toList, 1 / 1),
  ("dodani".toList, 1 / 1),
  ("stavba".toList, 1 / 1),
  ("construction".toList, 1 / 1),
  ("zasklení".toList, 9 / 10),
  ("zaklení".toList, 9 / 10),
  ("glazing".toList, 9 / 10),
  ("okenní".toList, 4 / 5),
  ("okenni".toList, 4 / 5),
  ("dveřní".toList, 4 / 5),
  ("dverni".toList, 4 / 5),
  ("oken".toList, 1 / 2),
  ("dveří".toList, 1 / 2),
  ("dveri".toList, 1 / 2),
  ("úklid".toList, -3 / 1),
  ("uklid".toList, -3 / 1),
  ("cleaning".toList, -3 / 1),
  ("mytí".toList, -3 / 1),
  ("myti".toList, -3 / 1),
  ("washing".toList, -3 / 1),
  ("čištění".toList, -3 / 1),
  ("cisteni".toList, -3 / 1),
  ("dvířka".toList, -2 / 1),
  ("dvirka".toList, -2 / 1),
  ("kočky".toList, -3 / 1),
  ("kocky".toList, -3 / 1),
  ("cats".toList, -3 / 1),
  ("domácí".toList, -2 / 1),
  ("domaci".toList, -2 / 1),
  ("pets".toList, -2 / 1),
  ("síť".toList, -1 / 1),
  ("sit".toList, -1 / 1),
  ("net".toList, -1 / 1),
  ("ochrannou".toList, -1 / 1),
  ("protective".toList, -1 / 1)]

/-- Round half to even on the integers, as Python `round` does. -/
def roundHalfEven (q : ℚ) : ℤ :=
  let f := ⌊q⌋
  if q - f < 1 / 2 then f
  else if (1 : ℚ) / 2 < q - f then f + 1
  else if f % 2 = 0 then f else f + 1

/-- Python `round(x, 2)`, modelled as exact decimal rounding of the
rational. -/
def pyRound2 (q : ℚ) : ℚ :=
  (roundHalfEven (100 * q) : ℚ) / 100

/-- Embeds `calculate_relevance_score` of `poptavky_cz_scraper.py`: sum the
weights of the vocabulary phrases occurring in
`f"{title} {description}".lower()`, add 0.5 when the caller's keyword occurs,
divide by the assumed maximum 3.0, take `min(_, 1.0)`, and round to two
decimals. -/
def calculate_relevance_score (title description keyword : List Char) : ℚ :=
  if title = [] ∧ description = [] then 0
  else
    let text := pyLower (title ++ ' ' :: description)
    let keyword_lower := pyLower keyword
    let score : ℚ :=
      (fenestration_keywords.map (fun p =>
        if strContains p.1 text then p.2 else 0)).sum
    let score := score +
      (if keyword_lower ≠ [] ∧ strContains keyword_lower text then (1 : ℚ) / 2 else 0)
    let max_possible_score : ℚ := 3
    pyRound2 (min (score / max_possible_score) 1)

/-! ### Reference formulas for the similarity (for the refinement claims) -/

/-- Similarity as the specification words it: the weighted per-field sum over
the fields non-empty in both records, divided by the sum of the weights of
those fields. Written from the spec sentence, to be compared with
`calculate_similarity`, which is written from the source. -/
def specSimilarity (t1 : Candidate) (t2 : StoredTender) : ℚ :=
  let pt := pyLower t1.title ≠ [] ∧ pyLower t2.title ≠ []
  let pd := pyLower t1.description ≠ [] ∧ pyLower t2.description ≠ []
  let pl := pyLower t1.location ≠ [] ∧ pyLower t2.location ≠ []
  let num : ℚ :=
    (if pt then seqRatio (pyLower t1.title) (pyLower t2.title) * (1 / 2) else 0) +
    (if pd then seqRatio (pyLower t1.description) (pyLower t2.description) * (3 / 10) else 0) +
    (if pl then seqRatio (pyLower t1.location) (pyLower t2.location) * (1 / 5) else 0)
  let wsum : ℚ :=
    (if pt then (1 : ℚ) / 2 else 0) + (if pd then (3 : ℚ) / 10 else 0) +
      (if pl then (1 : ℚ) / 5 else 0)
  if wsum = 0 then 0 else num / wsum

/-- Similarity normalized by the count of contributing fields: the weighted
per-field sum over the fields non-empty in both records, divided by the number
of those fields. This is the formula the code actually computes. -/
def countSimilarity (t1 : Candidate) (t2 : StoredTender) : ℚ :=
  let pt := pyLower t1.title ≠ [] ∧ pyLower t2.title ≠ []
  let pd := pyLower t1.description ≠ [] ∧ pyLower t2.description ≠ []
  let pl := pyLower t1.location ≠ [] ∧ pyLower t2.location ≠ []
  let num : ℚ :=
    (if pt then seqRatio (pyLower t1.title) (pyLower t2.title) * (1 / 2) else 0) +
    (if pd then seqRatio (pyLower t1.description) (pyLower t2.description) * (3 / 10) else 0) +
    (if pl then seqRatio (pyLower t1.location) (pyLower t2.location) * (1 / 5) else 0)
  let n : ℚ :=
    (if pt then (1 : ℚ) else 0) + (if pd then (1 : ℚ) else 0) + (if pl then (1 : ℚ) else 0)
  if n = 0 then 0 else num / n

/-! ### Concrete records used by the evaluation theorems -/

/-- Candidate whose only populated field is the title `"a"`. -/
def cTitleA : Candidate :=
  ⟨[], "a".toList, [], [], [], [], none⟩

/-- Stored row whose only populated text field is the title `"a"`. -/
def sTitleA : StoredTender :=
  ⟨0, none, "a".toList, [], [], [], [], none, 0, false⟩

/-- Candidate with title `"aba"`. -/
def cAba : Candidate :=
  ⟨[], "aba".toList, [], [], [], [], none⟩

/-- Stored row with title `"babba"`. -/
def sBabba : StoredTender :=
  ⟨0, none, "babba".toList, [], [], [], [], none, 0, false⟩

/-- Candidate with title `"babba"` (the fields of `sBabba`, in candidate
role). -/
def cBabba : Candidate :=
  ⟨[], "babba".toList, [], [], [], [], none⟩

/-- Stored row with title `"aba"` (the fields of `cAba`, in stored role). -/
def sAba : StoredTender :=
  ⟨1, none, "aba".toList, [], [], [], [], none, 0, false⟩

/-- Stored row with an empty `source_url` (as `store_new_tenders` produces for
a candidate without one) and title `"x"`. -/
def stoE : StoredTender :=
  ⟨2, none, "x".toList, [], [], "s".toList, [], none, 0, false⟩

/-- Candidate with an empty `source_url`, title `"y"`, same source as
`stoE`. -/
def candE : Candidate :=
  ⟨[], "y".toList, [], [], "s".toList, [], none⟩

/-- Stored row for the spec's URL scenario: `source_url = "https://a/1"`. -/
def stoU : StoredTender :=
  ⟨3, none, "Window Replacement — City Hall".toList, [], [], "sam.gov".toList,
    "https://a/1".toList, none, 0, false⟩

/-- Candidate for the spec's URL scenario: same title, source and
`source_url` as `stoU`. -/
def candU : Candidate :=
  ⟨[], "Window Replacement — City Hall".toList, [], [], "sam.gov".toList,
    "https://a/1".toList, none⟩

/-- Old stored row with a high relevance score (`1`). -/
def rowHigh : StoredTender :=
  ⟨4, none, "t".toList, [], [], "s".toList, [], some 1, 0, true⟩

/-- Old stored row with a low relevance score (`0.1`). -/
def rowOldLow : StoredTender :=
  ⟨5, none, "t".toList, [], [], "s".toList, [], some (1 / 10), 0, true⟩

/-- Service configured with `max_stored_tenders = 1` (the similarity threshold
keeps its default). -/
def svcMax1 : DeduplicationService :=
  ⟨4 / 5, 1⟩

/-- Candidate with a low relevance score (`0`). -/
def candLow : Candidate :=
  ⟨[], "n".toList, [], [], "s".toList, [], some 0⟩

/-- Row that `store_new_tenders` builds from `candLow` at time `5` with
primary key `10`, after the notified flip. -/
def rowNewLow : StoredTender :=
  ⟨10, none, "n".toList, [], [], "s".toList, [], some 0, 5, true⟩

/-- Candidate with a missing (empty) title. -/
def candNT : Candidate :=
  ⟨[], [], "d".toList, [], "s".toList, "u".toList, some 1⟩

/-- Row that `store_new_tenders` builds from `candNT` at time `5` with primary
key `0`, after the notified flip: persisted with an empty title. -/
def rowNT : StoredTender :=
  ⟨0, none, [], "d".toList, [], "s".toList, "u".toList, some 1, 5, true⟩

/-- Candidate with a high relevance score (`1`). -/
def candGood : Candidate :=
  ⟨[], "g".toList, [], [], "s".toList, [], some 1⟩

/-- Row that `store_new_tenders` builds from `candGood` at time `5` with
primary key `0`, after the notified flip. -/
def rowGood : StoredTender :=
  ⟨0, none, "g".toList, [], [], "s".toList, [], some 1, 5, true⟩


deriving instance DecidableEq for Except

/-! ### Range bounds of the matcher, giving `ratio ∈ [0, 1]` -/

lemma flmInner_inv {alo ahi blo bhi i : Nat} (hi : alo ≤ i) (hia : i < ahi) :
    ∀ (js : List Nat) (j2len nj : Nat → Nat) (m : Match),
    (∀ j ∈ js, blo ≤ j ∧ j < bhi) →
    J2Inv alo blo bhi i j2len →
    J2Inv alo blo bhi (i + 1) nj →
    MBounds alo ahi blo bhi m →
    J2Inv alo blo bhi (i + 1) (flmInner i j2len js nj m).1 ∧
      MBounds alo ahi blo bhi (flmInner i j2len js nj m).2 := by
  intro js
  induction js with
  | nil => intro j2len nj m _ _ hnj hm; exact ⟨hnj, hm⟩
  | cons j js ih =>
    intro j2len nj m hjs hj2 hnj hm
    obtain ⟨hjlo, hjhi⟩ := hjs j (List.mem_cons_self j js)
    have hk : (if j = 0 then 1 else j2len (j - 1) + 1) + alo ≤ i + 1 ∧
        (if j = 0 then 1 else j2len (j - 1) + 1) + blo ≤ j + 1 := by
      by_cases hj0 : j = 0
      · subst hj0; rw [if_pos rfl]; omega
      · simp only [if_neg hj0]
        rcases hj2 (j - 1) with h0 | ⟨_, _, hlen, hstart⟩
        · rw [h0]; omega
        · omega
    simp only [flmInner]
    generalize hK : (if j = 0 then 1 else j2len (j - 1) + 1) = K at hk ⊢
    apply ih
    · exact fun x hx => hjs x (List.mem_cons_of_mem j hx)
    · exact hj2
    · intro x
      by_cases hx : x = j
      · subst hx
        exact Or.inr ⟨hjlo, hjhi, by simpa using hk.1, by simpa using hk.2⟩
      · simpa [hx] using hnj x
    · by_cases hbig : m.bestsize < K
      · simp only [if_pos hbig]
        exact ⟨show alo ≤ i + 1 - K by omega, show blo ≤ j + 1 - K by omega,
          show i + 1 - K + K ≤ ahi by omega, show j + 1 - K + K ≤ bhi by omega⟩
      · simpa [hbig] using hm

lemma flmRows_inv {a b : List Char} {alo ahi blo bhi : Nat} :
    ∀ (n s : Nat) (j2len : Nat → Nat) (m : Match),
    alo ≤ s → s + n ≤ ahi →
    J2Inv alo blo bhi s j2len →
    MBounds alo ahi blo bhi m →
    MBounds alo ahi blo bhi (flmRows a b blo bhi (List.range' s n) j2len m) := by
  intro n
  induction n with
  | zero => intro s j2len m _ _ _ hm; simpa [flmRows] using hm
  | succ n ih =>
    intro s j2len m hs hn hj2 hm
    rw [List.range'_succ, flmRows]
    have hjs : ∀ j ∈ (b2j b (a.getD s ' ')).filter
        (fun j => decide (blo ≤ j) && decide (j < bhi)), blo ≤ j ∧ j < bhi := by
      intro j hj
      have := (List.mem_filter.mp hj).2
      simp only [Bool.and_eq_true, decide_eq_true_eq] at this
      exact this
    have h := @flmInner_inv alo ahi blo bhi s hs (by omega)
      ((b2j b (a.getD s ' ')).filter (fun j => decide (blo ≤ j) && decide (j < bhi)))
      j2len (fun _ => 0) m hjs hj2 (fun _ => Or.inl rfl) hm
    exact ih (s + 1) _ _ (by omega) (by omega) h.1 h.2

lemma extendLeft_bounds {a b : List Char} {alo ahi blo bhi : Nat} {junk : Bool} :
    ∀ (fuel : Nat) (m : Match), MBounds alo ahi blo bhi m →
    MBounds alo ahi blo bhi (extendLeft a b alo blo junk fuel m) := by
  intro fuel
  induction fuel with
  | zero => intro m hm; exact hm
  | succ fuel ih =>
    intro m hm
    rw [extendLeft]
    split
    · next h =>
      apply ih
      obtain ⟨h1, h2, h3, h4⟩ := hm
      obtain ⟨hc1, hc2, -⟩ := h
      exact ⟨show alo ≤ m.besti - 1 by omega, show blo ≤ m.bestj - 1 by omega,
        show m.besti - 1 + (m.bestsize + 1) ≤ ahi by omega,
        show m.bestj - 1 + (m.bestsize + 1) ≤ bhi by omega⟩
    · exact hm

lemma extendRight_bounds {a b : List Char} {alo ahi blo bhi : Nat} {junk : Bool} :
    ∀ (fuel : Nat) (m : Match), MBounds alo ahi blo bhi m →
    MBounds alo ahi blo bhi (extendRight a b ahi bhi junk fuel m) := by
  intro fuel
  induction fuel with
  | zero => intro m hm; exact hm
  | succ fuel ih =>
    intro m hm
    rw [extendRight]
    split
    · next h =>
      apply ih
      obtain ⟨h1, h2, h3, h4⟩ := hm
      obtain ⟨hc1, hc2, -⟩ := h
      exact ⟨show alo ≤ m.besti by omega, show blo ≤ m.bestj by omega,
        show m.besti + (m.bestsize + 1) ≤ ahi by omega,
        show m.bestj + (m.bestsize + 1) ≤ bhi by omega⟩
    · exact hm

lemma findLongestMatch_bounds {a b : List Char} {alo ahi blo bhi : Nat}
    (h1 : alo ≤ ahi) (h2 : blo ≤ bhi) :
    MBounds alo ahi blo bhi (findLongestMatch a b alo ahi blo bhi) := by
  unfold findLongestMatch
  apply extendRight_bounds
  apply extendLeft_bounds
  apply extendRight_bounds
  apply extendLeft_bounds
  exact flmRows_inv (ahi - alo) alo (fun _ => 0) ⟨alo, blo, 0⟩ le_rfl (by omega)
    (fun _ => Or.inl rfl)
    ⟨le_rfl, le_rfl, show alo + 0 ≤ ahi by omega, show blo + 0 ≤ bhi by omega⟩

lemma matchTotal_le (a b : List Char) :
    ∀ (fuel alo ahi blo bhi : Nat), alo ≤ ahi → blo ≤ bhi →
    matchTotal a b fuel alo ahi blo bhi ≤ min (ahi - alo) (bhi - blo) := by
  intro fuel
  induction fuel with
  | zero => intro alo ahi blo bhi _ _; simp [matchTotal]
  | succ fuel ih =>
    intro alo ahi blo bhi h1 h2
    rw [matchTotal]
    obtain ⟨hb1, hb2, hb3, hb4⟩ := findLongestMatch_bounds (a := a) (b := b) h1 h2
    set m := findLongestMatch a b alo ahi blo bhi with hmdef
    split
    · omega
    · have hL := ih alo m.besti blo m.bestj hb1 hb2
      have hR := ih (m.besti + m.bestsize) ahi (m.bestj + m.bestsize) bhi hb3 hb4
      omega

lemma seqRatio_nonneg (a b : List Char) : 0 ≤ seqRatio a b := by
  unfold seqRatio
  dsimp only
  split
  · norm_num
  · positivity

lemma seqRatio_le_one (a b : List Char) : seqRatio a b ≤ 1 := by
  unfold seqRatio
  dsimp only
  split
  · norm_num
  · next h =>
    rw [div_le_one (by positivity)]
    have hM := matchTotal_le a b (a.length + b.length + 1) 0 a.length 0 b.length
      (Nat.zero_le _) (Nat.zero_le _)
    have : 2 * matchTotal a b (a.length + b.length + 1) 0 a.length 0 b.length ≤
        a.length + b.length := by omega
    exact_mod_cast this

lemma calculate_similarity_le_half (t1 : Candidate) (t2 : StoredTender) :
    calculate_similarity t1 t2 ≤ 1 / 2 := by
  have r1 := seqRatio_le_one (pyLower t1.title) (pyLower t2.title)
  have r1n := seqRatio_nonneg (pyLower t1.title) (pyLower t2.title)
  have r2 := seqRatio_le_one (pyLower t1.description) (pyLower t2.description)
  have r2n := seqRatio_nonneg (pyLower t1.description) (pyLower t2.description)
  have r3 := seqRatio_le_one (pyLower t1.location) (pyLower t2.location)
  have r3n := seqRatio_nonneg (pyLower t1.location) (pyLower t2.location)
  unfold calculate_similarity
  dsimp only
  by_cases h1 : pyLower t1.title ≠ [] ∧ pyLower t2.title ≠ [] <;>
    by_cases h2 : pyLower t1.description ≠ [] ∧ pyLower t2.description ≠ [] <;>
      by_cases h3 : pyLower t1.location ≠ [] ∧ pyLower t2.location ≠ [] <;>
        simp [h1, h2, h3] <;> linarith

lemma calculate_similarity_eq_countSimilarity (t1 : Candidate) (t2 : StoredTender) :
    calculate_similarity t1 t2 = countSimilarity t1 t2 := by
  unfold calculate_similarity countSimilarity
  dsimp only
  by_cases h1 : pyLower t1.title ≠ [] ∧ pyLower t2.title ≠ [] <;>
    by_cases h2 : pyLower t1.description ≠ [] ∧ pyLower t2.description ≠ [] <;>
      by_cases h3 : pyLower t1.location ≠ [] ∧ pyLower t2.location ≠ [] <;>
        simp [h1, h2, h3] <;> (norm_num; try ring_nf)

/-! ### Behaviour of the batch loop -/

lemma is_similar_tender_of_query_fails (svc : DeduplicationService)
    (db : List StoredTender) (t : Candidate) :
    is_similar_tender svc db true t = false := by
  unfold is_similar_tender
  dsimp only
  split
  · rfl
  · split
    · rfl
    · rw [if_pos rfl]

lemma is_duplicate_all_reads_fail (svc : DeduplicationService)
    (db : List StoredTender) (f : DbFaults) (c : Candidate)
    (h1 : f.url_query_fails = true) (h2 : f.id_query_fails = true)
    (h3 : f.similar_query_fails = true) :
    is_duplicate svc db f c = false := by
  unfold is_duplicate
  by_cases hu : c.source_url = []
  · rw [if_neg (by simp [hu]), if_neg (by simp [hu])]
    by_cases hi : c.tender_id = []
    · rw [if_neg (by simp [hi]), if_neg (by simp [hi]), h3]
      exact is_similar_tender_of_query_fails svc db c
    · rw [if_pos ⟨hi, h2⟩]
  · rw [if_pos ⟨hu, h1⟩]

lemma detectLoop_no_raise (svc : DeduplicationService) (db : List StoredTender)
    (F : Nat → DbFaults) (hF : ∀ n, (F n).loop_raises = false) :
    ∀ (cands : List Candidate) (i : Nat), ∃ l,
      detectLoop svc db F i cands = Except.ok l ∧ l.Sublist cands ∧
        ∀ x ∈ l, ∃ k, is_duplicate svc db (F k) x = false := by
  intro cands
  induction cands with
  | nil => exact fun i => ⟨[], rfl, List.Sublist.refl [], by simp⟩
  | cons t rest ih =>
    intro i
    obtain ⟨l, hl, hsub, hmem⟩ := ih (i + 1)
    by_cases hd : is_duplicate svc db (F i) t = true
    · refine ⟨l, ?_, hsub.cons t, hmem⟩
      simp [detectLoop, hF i, hl, hd]
    · refine ⟨t :: l, ?_, hsub.cons₂ t, fun x hx => ?_⟩
      · simp [detectLoop, hF i, hl, hd]
      · rcases List.mem_cons.mp hx with hx | hx
        · exact ⟨i, by rw [hx]; exact Bool.eq_false_iff.mpr hd⟩
        · exact hmem x hx

lemma detectLoop_raises (svc : DeduplicationService) (db : List StoredTender)
    (F : Nat → DbFaults) :
    ∀ (cands : List Candidate) (i : Nat),
      (∃ k, k < cands.length ∧ (F (i + k)).loop_raises = true) →
      detectLoop svc db F i cands = Except.error () := by
  intro cands
  induction cands with
  | nil => intro i ⟨k, hk, _⟩; simp at hk
  | cons t rest ih =>
    intro i ⟨k, hk, hraise⟩
    by_cases h0 : (F i).loop_raises = true
    · simp [detectLoop, h0]
    · have hk0 : k ≠ 0 := by
        intro h; rw [h, Nat.add_zero] at hraise; exact h0 hraise
      have hrest : detectLoop svc db F (i + 1) rest = Except.error () :=
        ih (i + 1) ⟨k - 1, by simp at hk; omega, by
          have h1 : i + 1 + (k - 1) = i + k := by omega
          rw [h1]; exact hraise⟩
      simp [detectLoop, h0, hrest]

lemma detectLoop_sublist (svc : DeduplicationService) (db : List StoredTender)
    (F : Nat → DbFaults) :
    ∀ (cands : List Candidate) (i : Nat) (l : List Candidate),
      detectLoop svc db F i cands = Except.ok l → l.Sublist cands := by
  intro cands
  induction cands with
  | nil =>
    intro i l h
    rw [detectLoop] at h
    cases h
    exact List.Sublist.refl []
  | cons t rest ih =>
    intro i l h
    rw [detectLoop] at h
    split at h
    · cases h
    · split at h
      · cases h
      · next l' hl' =>
        cases h
        split
        · exact (ih (i + 1) l' hl').cons t
        · exact (ih (i + 1) l' hl').cons₂ t

/-! ### Cleanup and persistence lemmas -/

lemma mem_insertByCreatedAt {t u : StoredTender} :
    ∀ {l : List StoredTender}, u ∈ insertByCreatedAt t l ↔ u = t ∨ u ∈ l := by
  intro l
  induction l with
  | nil => simp [insertByCreatedAt]
  | cons v vs ih =>
    unfold insertByCreatedAt
    split
    · simp
    · rw [List.mem_cons, ih, List.mem_cons]
      tauto

lemma mem_sortByCreatedAt {u : StoredTender} :
    ∀ {l : List StoredTender}, u ∈ sortByCreatedAt l ↔ u ∈ l := by
  intro l
  induction l with
  | nil => simp [sortByCreatedAt]
  | cons v vs ih =>
    rw [sortByCreatedAt, mem_insertByCreatedAt, ih, List.mem_cons]

lemma mem_cleanup_old_tenders (svc : DeduplicationService)
    (db : List StoredTender) (r : StoredTender) (hr : r ∈ db)
    (hscore : sqlScoreLt r.relevance_score (1 / 2) = false)
    (hids : (db.map StoredTender.id).Nodup) :
    r ∈ cleanup_old_tenders svc db := by
  unfold cleanup_old_tenders
  dsimp only
  split
  · refine List.mem_filter.mpr ⟨hr, ?_⟩
    rw [Bool.not_eq_true', List.any_eq_false]
    intro o ho
    simp only [decide_eq_true_eq]
    intro heq
    have ho2 : o ∈ sortByCreatedAt (db.filter
        (fun t => sqlScoreLt t.relevance_score (1 / 2))) :=
      (List.take_sublist _ _).subset ho
    have ho3 := List.mem_filter.mp (mem_sortByCreatedAt.mp ho2)
    have : o = r := List.inj_on_of_nodup_map hids ho3.1 hr heq
    rw [this] at ho3
    rw [ho3.2] at hscore
    cases hscore
  · exact hr

lemma cleanup_old_tenders_of_le (svc : DeduplicationService)
    (db : List StoredTender) (h : db.length ≤ svc.max_stored_tenders) :
    cleanup_old_tenders svc db = db := by
  unfold cleanup_old_tenders
  rw [if_neg (by omega)]

/-! ### Claims C4, C7, C10 -/

/-- Claim C4, counterexample. The exact-URL check only fires for a truthy
(non-empty) `source_url`: a candidate whose `source_url` is the empty string,
equal to a stored record's empty `source_url`, skips the URL check entirely,
and (its title sharing no word with the stored title, and no identifier
present) is NOT excluded — `detect_new_tenders` returns it as new, refuting
the claim for this input. -/
theorem C4_counterexample :
    candE.source_url = stoE.source_url ∧
      detect_new_tenders defaultService [stoE] noFaults [candE] = [candE] := by
  with_unfolding_all decide

/-- Claim C4, amended: for every candidate with a NON-EMPTY `source_url` equal
to some stored record's `source_url`, if no exception escapes the batch loop
and the URL queries succeed, the candidate is excluded from the returned list
— regardless of the behaviour (including failures) of the identifier and
fuzzy checks. -/
theorem C4_amended_url_duplicates_excluded (svc : DeduplicationService)
    (db : List StoredTender) (F : Nat → DbFaults) (cands : List Candidate)
    (c : Candidate)
    (hF : ∀ n, (F n).loop_raises = false)
    (hFu : ∀ n, (F n).url_query_fails = false)
    (hurl : c.source_url ≠ [])
    (hmatch : ∃ s ∈ db, s.source_url = c.source_url) :
    c ∉ detect_new_tenders svc db F cands := by
  have hdup : ∀ k, is_duplicate svc db (F k) c = true := by
    intro k
    obtain ⟨s, hs, hsu⟩ := hmatch
    unfold is_duplicate
    rw [if_neg (by simp [hFu k]), if_pos ⟨hurl, List.any_eq_true.mpr
      ⟨s, hs, decide_eq_true hsu⟩⟩]
  intro hc
  unfold detect_new_tenders at hc
  obtain ⟨l, hl, _, hmem⟩ := detectLoop_no_raise svc db F hF cands 0
  rw [hl] at hc
  obtain ⟨k, hk⟩ := hmem c hc
  rw [hdup k] at hk
  cases hk

/-- Claim C4, amended, witness: the spec's own scenario — a stored record with
`source_url="https://a/1"` and a new candidate with the same URL — where the
candidate is rejected. -/
theorem C4_amended_witness :
    candU.source_url ≠ [] ∧ stoU.source_url = candU.source_url ∧
      candU ∉ detect_new_tenders defaultService [stoU] noFaults [candU] :=
  ⟨by decide, rfl,
    C4_amended_url_duplicates_excluded defaultService [stoU] noFaults [candU]
      candU (fun _ => rfl) (fun _ => rfl) (by decide)
      ⟨stoU, List.mem_cons_self stoU [], rfl⟩⟩

/-- Claim C7: the duplicate-check phase fails open. A candidate all of whose
duplicate-check queries raise is reported as not a duplicate; with every read
failing (and nothing escaping the loop), `detect_new_tenders` returns the
entire input; and an exception escaping the batch loop at any position makes
`detect_new_tenders` return the entire input. In all cases no candidate is
dropped because of a read error. -/
theorem C7_fail_open :
    (∀ (svc : DeduplicationService) (db : List StoredTender) (f : DbFaults)
        (c : Candidate), f.url_query_fails = true → f.id_query_fails = true →
        f.similar_query_fails = true → is_duplicate svc db f c = false) ∧
      (∀ (svc : DeduplicationService) (db : List StoredTender)
          (F : Nat → DbFaults) (cands : List Candidate),
          (∀ n, (F n).loop_raises = false) →
          (∀ n, (F n).url_query_fails = true ∧ (F n).id_query_fails = true ∧
            (F n).similar_query_fails = true) →
          detect_new_tenders svc db F cands = cands) ∧
      ∀ (svc : DeduplicationService) (db : List StoredTender)
          (F : Nat → DbFaults) (cands : List Candidate) (k : Nat),
          k < cands.length → (F k).loop_raises = true →
          detect_new_tenders svc db F cands = cands := by
  refine ⟨is_duplicate_all_reads_fail, ?_, ?_⟩
  · intro svc db F cands hF hall
    have hloop : ∀ (l : List Candidate) (i : Nat),
        detectLoop svc db F i l = Except.ok l := by
      intro l
      induction l with
      | nil => intro i; rfl
      | cons t rest ih =>
        intro i
        simp [detectLoop, hF i, ih (i + 1),
          is_duplicate_all_reads_fail svc db (F i) t
            (hall i).1 (hall i).2.1 (hall i).2.2]
    unfold detect_new_tenders
    rw [hloop cands 0]
  · intro svc db F cands k hk hraise
    unfold detect_new_tenders
    rw [detectLoop_raises svc db F cands 0 ⟨k, hk, by simpa using hraise⟩]

/-- Claim C7, witness: a candidate whose URL matches a stored record is still
reported non-duplicate (and kept) when the reads fail, and a loop exception
returns the whole batch. -/
theorem C7_witness :
    is_duplicate defaultService [stoU] ⟨true, true, true, false⟩ candU = false ∧
      detect_new_tenders defaultService [stoU] (fun _ => ⟨true, true, true, false⟩)
        [candU] = [candU] ∧
      detect_new_tenders defaultService [stoU] (fun _ => ⟨false, false, false, true⟩)
        [candU] = [candU] :=
  ⟨C7_fail_open.1 defaultService [stoU] ⟨true, true, true, false⟩ candU rfl rfl rfl,
    C7_fail_open.2.1 defaultService [stoU] (fun _ => ⟨true, true, true, false⟩)
      [candU] (fun _ => rfl) (fun _ => ⟨rfl, rfl, rfl⟩),
    C7_fail_open.2.2 defaultService [stoU] (fun _ => ⟨false, false, false, true⟩)
      [candU] 0 (by decide) rfl⟩

/-- Claim C10: for every input batch, fault pattern and database contents,
`detect_new_tenders` returns a sublist of its input — every output element is
an input element, in the original relative order, with no higher multiplicity
(and, the embedding being pure, the records themselves are returned
unmodified). -/
theorem C10_detect_returns_sublist (svc : DeduplicationService)
    (db : List StoredTender) (F : Nat → DbFaults) (cands : List Candidate) :
    (detect_new_tenders svc db F cands).Sublist cands := by
  unfold detect_new_tenders
  split
  · next l hl => exact detectLoop_sublist svc db F cands 0 l hl
  · exact List.Sublist.refl cands

/-! ### Claims C1, C2, C9 -/

/-- Claim C1, counterexample. With both records carrying only the title
`"a"`, the code's similarity is `(1 * 0.5) / 1 = 0.5` — the weighted sum
divided by the number of contributing fields — whereas the claimed
weight-sum normalization gives `(1 * 0.5) / 0.5 = 1`. The two disagree, so
the similarity is not re-normalized by the sum of the weights used. -/
theorem C1_counterexample :
    calculate_similarity cTitleA sTitleA = 1 / 2 ∧
      specSimilarity cTitleA sTitleA = 1 ∧
      calculate_similarity cTitleA sTitleA ≠ specSimilarity cTitleA sTitleA := by
  with_unfolding_all decide

/-- Claim C1, amended: the similarity equals the weighted per-field sum
(title 0.5, description 0.3, location 0.2) over exactly the fields non-empty
in both records, divided by the COUNT of those fields (not by the sum of
their weights, and with value 0 when no field contributes). -/
theorem C1_amended_count_normalized (t1 : Candidate) (t2 : StoredTender) :
    calculate_similarity t1 t2 = countSimilarity t1 t2 :=
  calculate_similarity_eq_countSimilarity t1 t2

/-- Claim C2: the similarity returned by `_calculate_similarity` is at most
`0.5` for every pair of records (largest weight over one counted field), and
consequently, at the default threshold `0.8`, `_is_similar_tender` returns
false for every candidate, whatever the database contents (and whether or not
its candidates query fails). -/
theorem C2_similarity_bounded_fuzzy_never_fires :
    (∀ (t1 : Candidate) (t2 : StoredTender), calculate_similarity t1 t2 ≤ 1 / 2) ∧
      ∀ (db : List StoredTender) (q : Bool) (t : Candidate),
        is_similar_tender defaultService db q t = false := by
  refine ⟨calculate_similarity_le_half, fun db q t => ?_⟩
  unfold is_similar_tender
  dsimp only
  split
  · rfl
  · split
    · rfl
    · split
      · rfl
      · rw [List.any_eq_false]
        intro c _
        simp only [decide_eq_true_eq, not_lt]
        calc calculate_similarity t c ≤ 1 / 2 := calculate_similarity_le_half t c
          _ ≤ defaultService.similarity_threshold := by norm_num [defaultService]

/-- Claim C9, counterexample. Swapping which record is candidate and which is
stored does not preserve the similarity: with titles `"aba"` and `"babba"`
(the other fields empty), the forward similarity is `0.75 * 0.5 = 3/8` while
the swapped one is `0.5 * 0.5 = 1/4` — `SequenceMatcher.ratio` is not
commutative. -/
theorem C9_counterexample :
    cBabba.title = sBabba.title ∧ sAba.title = cAba.title ∧
      calculate_similarity cAba sBabba = 3 / 8 ∧
      calculate_similarity cBabba sAba = 1 / 4 ∧
      calculate_similarity cAba sBabba ≠ calculate_similarity cBabba sAba := by
  with_unfolding_all decide

/-- Claim C9, amended: swapping the candidate and stored roles preserves the
weighted sum exactly when the per-field string-similarity values are
themselves unchanged by the swap (which holds e.g. for equal fields, but not
in general, as the counterexample shows). -/
theorem C9_amended_symmetric_of_commutative (t1 t1' : Candidate)
    (t2 t2' : StoredTender)
    (ht : t1'.title = t2.title) (ht' : t2'.title = t1.title)
    (hd : t1'.description = t2.description) (hd' : t2'.description = t1.description)
    (hl : t1'.location = t2.location) (hl' : t2'.location = t1.location)
    (rt : seqRatio (pyLower t2.title) (pyLower t1.title) =
      seqRatio (pyLower t1.title) (pyLower t2.title))
    (rd : seqRatio (pyLower t2.description) (pyLower t1.description) =
      seqRatio (pyLower t1.description) (pyLower t2.description))
    (rl : seqRatio (pyLower t2.location) (pyLower t1.location) =
      seqRatio (pyLower t1.location) (pyLower t2.location)) :
    calculate_similarity t1' t2' = calculate_similarity t1 t2 := by
  unfold calculate_similarity
  dsimp only
  rw [ht, ht', hd, hd', hl, hl', rt, rd, rl]
  simp only [and_comm]

/-- Claim C9, amended, witness: at the concrete pair with equal titles
`"aba"`, the hypotheses hold definitionally and the swapped similarity agrees. -/
theorem C9_amended_witness :
    cAba.title = sAba.title ∧
      calculate_similarity cAba sAba = calculate_similarity cAba sAba :=
  ⟨rfl, C9_amended_symmetric_of_commutative cAba cAba sAba sAba
    rfl rfl rfl rfl rfl rfl rfl rfl rfl⟩

/-! ### Claims C3, C5, C6, C8 -/

set_option maxRecDepth 8000 in
/-- Claim C3: evaluation of the code at the failing input. The poptavky
scorer only caps the normalized score from above (`min(score / 3.0, 1.0)`),
so a text hit only by penalty vocabulary — title `"úklid"`, empty
description, empty keyword — is scored `min(-3/3, 1) = -1`, below 0, contrary
to the claimed (and code-commented) clamping to `[0, 1]`. -/
theorem C3_code_bug_poptavky_score_negative :
    calculate_relevance_score "úklid".toList [] [] = -1 ∧
      calculate_relevance_score "úklid".toList [] [] < 0 := by
  with_unfolding_all decide

/-- Claim C5: under the default retention configuration (90 days), the
retention sweep keeps every record whose relevance score is at least 0.7,
whatever its age, and deletes every record that is both older than the cutoff
and scored below 0.7. -/
theorem C5_retention_sweep_thresholds (now : ℤ) (db : List StoredTender)
    (survivors : List StoredTender)
    (h : cleanup_old_data tender_retention_days now false db = Except.ok survivors)
    (r : StoredTender) (hr : r ∈ db) :
    ((∃ q, r.relevance_score = some q ∧ 7 / 10 ≤ q) → r ∈ survivors) ∧
      (r.created_at < now - tender_retention_days * 86400 →
        sqlScoreLt r.relevance_score (7 / 10) = true → r ∉ survivors) := by
  have hs : db.filter (fun t =>
      !(decide (t.created_at < now - (tender_retention_days : ℤ) * 86400) &&
        sqlScoreLt t.relevance_score (7 / 10))) = survivors := by
    simpa [cleanup_old_data] using h
  subst hs
  constructor
  · rintro ⟨q, hq, hge⟩
    refine List.mem_filter.mpr ⟨hr, ?_⟩
    have : sqlScoreLt r.relevance_score (7 / 10) = false := by
      rw [hq]; exact decide_eq_false (not_lt.mpr hge)
    simp [this]
  · intro hold hlow hmem
    have := (List.mem_filter.mp hmem).2
    rw [hlow] at this
    simp [hold] at this

/-- Claim C5, witness: a 200-day-old record with score 1 survives the sweep
while a 200-day-old record with score 0.1 is deleted. -/
theorem C5_witness :
    (∃ q, rowHigh.relevance_score = some q ∧ 7 / 10 ≤ q) ∧
      rowHigh ∈ [rowHigh] ∧ rowOldLow ∉ [rowHigh] := by
  have hclean : cleanup_old_data tender_retention_days (200 * 86400) false
      [rowHigh, rowOldLow] = Except.ok [rowHigh] := by
    with_unfolding_all decide
  have t1 := C5_retention_sweep_thresholds (200 * 86400) [rowHigh, rowOldLow]
    [rowHigh] hclean rowHigh (by simp)
  have t2 := C5_retention_sweep_thresholds (200 * 86400) [rowHigh, rowOldLow]
    [rowHigh] hclean rowOldLow (by simp)
  have hex : ∃ q, rowHigh.relevance_score = some q ∧ 7 / 10 ≤ q :=
    ⟨1, rfl, by norm_num⟩
  exact ⟨hex, t1.1 hex,
    t2.2 (by with_unfolding_all decide) (by with_unfolding_all decide)⟩

/-- Claim C6, counterexample. Persistence succeeding does not leave every
constructed record stored: with `max_stored_tenders = 1`, one stored
high-score row and a low-score batch of one, `store_new_tenders` commits the
insert and then its inline `_cleanup_old_tenders` immediately deletes the
just-inserted row — the call returns successfully yet the new record is
absent from the store. -/
theorem C6_counterexample :
    store_new_tenders svcMax1 [rowHigh] 5 10 (fun _ => false) false false false
        [candLow] = Except.ok ([rowHigh], [rowNewLow]) ∧
      rowNewLow ∉ [rowHigh] := by
  with_unfolding_all decide

/-- Claim C6, amended: database errors during persistence are propagated
(the call returns an error rather than a result); an insert-commit failure
rolls back, leaving the store unchanged; a notified-flip-commit failure
raises with the inserted batch already committed (unnotified); and on success
every constructed record is inserted and survives the inline cleanup provided
its relevance score is not below 0.5 (given distinct primary keys) or the
store stays within `max_stored_tenders` — without such a proviso retention
may delete batch records at once, as the counterexample shows. -/
theorem C6_amended_store_error_atomicity (svc : DeduplicationService)
    (db : List StoredTender) (now : ℤ) (nextId : Nat) (cf : Nat → Bool)
    (tenders : List Candidate) :
    (∀ cn cl, store_new_tenders svc db now nextId cf true cn cl tenders =
      Except.error db) ∧
      (∀ cl, store_new_tenders svc db now nextId cf false true cl tenders =
        Except.error (db ++ buildStored now cf 0 nextId tenders)) ∧
      ∀ cl final stored,
        store_new_tenders svc db now nextId cf false false cl tenders =
          Except.ok (final, stored) →
        ∀ r ∈ stored,
          (sqlScoreLt r.relevance_score (1 / 2) = false →
            ((db ++ stored).map StoredTender.id).Nodup → r ∈ final) ∧
          (db.length + stored.length ≤ svc.max_stored_tenders → r ∈ final) := by
  refine ⟨fun cn cl => by simp [store_new_tenders], fun cl => by
    simp [store_new_tenders], ?_⟩
  intro cl final stored h r hr
  simp only [store_new_tenders, if_neg Bool.false_ne_true, Except.ok.injEq,
    Prod.mk.injEq] at h
  obtain ⟨hfin, hsto⟩ := h
  subst hsto
  subst hfin
  constructor
  · intro hscore hids
    split
    · exact List.mem_append_right db hr
    · exact mem_cleanup_old_tenders svc _ r (List.mem_append_right db hr)
        hscore hids
  · intro hlen
    split
    · exact List.mem_append_right db hr
    · rw [cleanup_old_tenders_of_le svc _ (by rw [List.length_append]; omega)]
      exact List.mem_append_right db hr

/-- Claim C6, amended, witness: with the default service and an empty store,
an insert-commit failure surfaces as an error with the store unchanged, and a
successful call leaves the constructed high-score record stored. -/
theorem C6_amended_witness :
    store_new_tenders defaultService [] 5 0 (fun _ => false) true false false
        [candGood] = Except.error [] ∧
      rowGood ∈ [rowGood] := by
  have hok : store_new_tenders defaultService [] 5 0 (fun _ => false) false false
      false [candGood] = Except.ok ([rowGood], [rowGood]) := by
    with_unfolding_all decide
  refine ⟨(C6_amended_store_error_atomicity defaultService [] 5 0 (fun _ => false)
    [candGood]).1 false false, ?_⟩
  exact ((C6_amended_store_error_atomicity defaultService [] 5 0 (fun _ => false)
    [candGood]).2.2 false [rowGood] [rowGood] hok rowGood
    (List.mem_cons_self _ _)).2 (by decide)

/-- Claim C8, counterexample. A candidate with a missing title is neither
dropped nor warned about: `detect_new_tenders` passes it through (the fuzzy
check merely reports it non-similar) and `store_new_tenders` persists it with
an empty title. -/
theorem C8_counterexample :
    detect_new_tenders defaultService [] noFaults [candNT] = [candNT] ∧
      store_new_tenders defaultService [] 5 0 (fun _ => false) false false false
        [candNT] = Except.ok ([rowNT], [rowNT]) ∧
      rowNT.title = [] := by
  with_unfolding_all decide

/-- Claim C8, amended: a candidate with a missing (empty) title never makes
the batch fail — the similarity check returns non-similar for it, and the
persistence pass succeeds, storing it with an empty title rather than
dropping it. -/
theorem C8_amended_titleless_not_dropped (svc : DeduplicationService)
    (db : List StoredTender) (q : Bool) (c : Candidate) (hc : c.title = [])
    (now : ℤ) (nextId : Nat) (tenders : List Candidate) (cl : Bool) :
    is_similar_tender svc db q c = false ∧
      (mkStoredTender now nextId c).title = [] ∧
      (store_new_tenders svc db now nextId (fun _ => false) false false cl
        tenders).isOk = true := by
  refine ⟨?_, hc, ?_⟩
  · unfold is_similar_tender
    dsimp only
    rw [if_pos hc]
  · simp [store_new_tenders, Except.isOk, Except.toBool]

/-- Claim C8, amended, witness: the titleless candidate `candNT` instantiates
the amended claim. -/
theorem C8_amended_witness :
    candNT.title = [] ∧
      is_similar_tender defaultService [] false candNT = false ∧
      (mkStoredTender 5 0 candNT).title = [] := by
  have h := C8_amended_titleless_not_dropped defaultService [] false candNT rfl
    5 0 [candNT] false
  exact ⟨rfl, h.1, h.2.1⟩

end Fenix
